import Mathlib

/-
Shallow embedding of src/backend/services/veo_service.py (AgriBot).

Conventions used throughout:
- Python floats that only ever flow through construction, subtraction and
  comparison are modelled as Rat (field values) or Int (timestamps).
- Python str is modelled as String; None becomes Option.none.
- Python exceptions raised by a block are modelled by Except String, the
  error carrying str(exc).
- The google-genai client is an external collaborator; its observable
  behaviour during one run is modelled by the record VeoEnv: one outcome
  per generate_videos candidate (each candidate is called at most once),
  the stream of refreshed operations returned by operations.get, and the
  outcomes of files.download and video_file.save.
- The in-memory job dict self._jobs is modelled as an association list
  with the job id as key; the filesystem is modelled as the list of
  existing file paths.
- Assignments to job.status are additionally recorded in an explicit
  write trace (a List String) so that lifecycle/monotonicity statements
  can be made about the sequence of status values a record takes.
-/

-- ──────────────────────────────────────────────────────────────────
-- Data models (veo_service.py lines 24-50)
-- ──────────────────────────────────────────────────────────────────

/-- FieldAnalytics dataclass (lines 24-38): analytics derived from the
uploaded aerial image. Float fields are modelled as Rat. -/
structure FieldAnalytics where
  land_area_ha : Rat := 0
  water_need_l_per_day : Rat := 0
  profit_usd_per_ha : Rat := 0
  risk_score : Int := 0
  risk_label : String := "Unknown"
  sustainability_score : Int := 0
  soil_type : String := "Unknown"
  dominant_vegetation : String := "None"
  recommended_crop : String := "N/A"
  veo_prompt : String := ""
  is_mock : Bool := false
  notes : String := ""
deriving DecidableEq

/-- VeoJob dataclass (lines 41-50). The field notes is not declared in the
dataclass but is assigned dynamically at line 318 (job.notes = ...), which
Python permits; it is modelled here as an Option field defaulting to none.
created_at (a time.time float) is modelled as Int. -/
structure VeoJob where
  job_id : String
  status : String := "generating"
  video_url : Option String := none
  video_path : Option String := none
  analytics : Option FieldAnalytics := none
  error : Option String := none
  notes : Option String := none
  created_at : Int := 0
deriving DecidableEq

/-- MOCK_ANALYTICS constant (lines 57-76). -/
def MOCK_ANALYTICS : FieldAnalytics :=
  { land_area_ha := 12.4
  , water_need_l_per_day := 3800
  , profit_usd_per_ha := 1240
  , risk_score := 28
  , risk_label := "Low"
  , sustainability_score := 74
  , soil_type := "Sandy Loam"
  , dominant_vegetation := "Sparse Grass / Barren"
  , recommended_crop := "Wheat / Sorghum"
  , veo_prompt := "Cinematic aerial timelapse of a 12-hectare sandy-loam field in Yolo County, California."
  , is_mock := true
  , notes := "Mock analytics" }

/-- MOCK_VIDEO_URL constant (lines 79-81): the fixed substitute output
locator used whenever genuine generation is unavailable or fails. -/
def MOCK_VIDEO_URL : String :=
  "https://videos.pexels.com/video-files/852395/852395-hd_1280_720_25fps.mp4"

/-- VIDEO_DIR (line 91), with the TEMP environment variable unset so the
default /tmp applies. -/
def VIDEO_DIR : String := "/tmp/agribot_videos"

/-- Output path used at line 342: os.path.join(VIDEO_DIR, job_id + ".mp4"). -/
def outPath (job_id : String) : String := VIDEO_DIR ++ "/" ++ job_id ++ ".mp4"

-- ──────────────────────────────────────────────────────────────────
-- External collaborator model (google-genai client behaviour)
-- ──────────────────────────────────────────────────────────────────

/-- One generated video entry of operation.response.generated_videos;
its video file handle is modelled by an opaque identifying string. -/
structure GeneratedVideo where
  video : String
deriving DecidableEq

/-- The response object of a completed Veo operation. -/
structure VeoResponse where
  generated_videos : List GeneratedVideo
deriving DecidableEq

/-- A remote long-running operation handle as observed by the service:
its done flag and its (possibly absent) response. -/
structure Operation where
  done : Bool
  response : Option VeoResponse
deriving DecidableEq

/-- Observable behaviour of the genai client during one _run_veo_sync run.
generate_videos gives the outcome of the single attempt made for a
candidate model name (the prompt, image and GenerateVideosConfig are fixed
across candidates and therefore left implicit); operations_get gives the
operation returned by the k-th polling refresh (0-based); files_download
and file_save give the outcomes of client.files.download and
video_file.save. An exception is an Except.error carrying str(exc). -/
structure VeoEnv where
  generate_videos : String → Except String Operation
  operations_get : Nat → Operation
  files_download : GeneratedVideo → Except String Unit
  file_save : GeneratedVideo → String → Except String Unit

-- ──────────────────────────────────────────────────────────────────
-- String helpers for the billing-message test (line 314)
-- ──────────────────────────────────────────────────────────────────

/-- Lowercasing of a string, character by character (Python str.lower
restricted to the ASCII letters that occur in the messages involved). -/
def lowerStr (s : String) : String := String.mk (s.data.map Char.toLower)

/-- Auxiliary scan: does sub occur as a contiguous block of hay? -/
def containsAux (sub : List Char) : List Char → Bool
  | [] => sub.isEmpty
  | c :: rest => sub.isPrefixOf (c :: rest) || containsAux sub rest

/-- Python substring test: sub in hay. -/
def strContains (hay sub : String) : Bool := containsAux sub.data hay.data

/-- The billing heuristic at line 314:
"billing enabled" in (last_error or "").lower(). -/
def billingIndicated (last_error : Option String) : Bool :=
  strContains (lowerStr (last_error.getD "")) "billing enabled"

/-- The note attached on the billing fallback path (line 318). -/
def billingNote : String :=
  "Note: Real video generation requires GCP billing. Showing sample video."

/-- Rendering of the Option String last_error inside the f-string of the
RuntimeError raised at line 320 (None prints as None). -/
def optStr : Option String → String
  | some e => e
  | none => "None"

-- ──────────────────────────────────────────────────────────────────
-- Model fallback resolver (lines 286-311)
-- ──────────────────────────────────────────────────────────────────

/-- The fixed ordered candidate model tuple veo_models (lines 286-290). -/
def veo_models : List String :=
  ["veo-3.1-generate-preview", "veo-3.0-generate-001", "veo-2.0-generate-001"]

/-- The for-loop over veo_models (lines 292-311): try generate_videos on
each candidate in order; break at the first one that returns an operation;
on an exception record str(exc) as last_error and continue. Returns the
loop state (operation, last_error) together with the list of candidates
actually attempted, in attempt order. -/
def tryModels (start : String → Except String Operation) :
    List String → Option String → Option Operation × Option String × List String
  | [], last_error => (none, last_error, [])
  | m :: rest, last_error =>
    match start m with
    | .ok operation => (some operation, last_error, [m])
    | .error e =>
      let r := tryModels start rest (some e)
      (r.1, r.2.1, m :: r.2.2)

-- ──────────────────────────────────────────────────────────────────
-- Poll loop (lines 322-329)
-- ──────────────────────────────────────────────────────────────────

/-- The poll loop: for _ in range(fuel): if operation.done: break;
time.sleep(10); operation = client.operations.get(operation).
refreshes counts the operations_get calls performed so far (also used as
the index into the refresh stream); slept accumulates the time units
slept. Returns the final operation with both counters. -/
def pollLoop (refresh : Nat → Operation) (op : Operation)
    (refreshes slept fuel : Nat) : Operation × Nat × Nat :=
  match fuel with
  | 0 => (op, refreshes, slept)
  | fuel' + 1 =>
    if op.done then (op, refreshes, slept)
    else pollLoop refresh (refresh refreshes) (refreshes + 1) (slept + 10) fuel'

-- ──────────────────────────────────────────────────────────────────
-- _run_veo_sync (lines 267-348) and _run_veo_job (lines 248-265)
-- ──────────────────────────────────────────────────────────────────

/-- The job record produced by the billing fallback branch
(lines 316-318): video_url, status, notes assigned in that order. -/
def billingReadyJob (job : VeoJob) : VeoJob :=
  { job with video_url := some MOCK_VIDEO_URL, status := "ready", notes := some billingNote }

/-- The job record produced by the success branch (lines 345-347):
video_path, video_url, status assigned in that order. -/
def successJob (job : VeoJob) : VeoJob :=
  { job with
      video_path := some (outPath job.job_id),
      video_url := some ("/api/field-vision/video/" ++ job.job_id),
      status := "ready" }

/-- VeoService._run_veo_sync (lines 267-348) as a function from the
client behaviour and the current job record to either the mutated record
(paired with the trace of status values assigned) or the raised
exception message. The two raise conditions at line 331
(not operation.done or not operation.response) produce the same message
and are checked together. -/
def runVeoSync (env : VeoEnv) (job : VeoJob) : Except String (VeoJob × List String) :=
  match tryModels env.generate_videos veo_models none with
  | (none, last_error, _attempted) =>
    if billingIndicated last_error then
      .ok (billingReadyJob job, ["ready"])
    else
      .error ("No Veo model available or all failed. Last error: " ++ optStr last_error)
  | (some operation, _, _) =>
    match pollLoop env.operations_get operation 0 0 42 with
    | (finalOp, _refreshes, _slept) =>
      match finalOp.done, finalOp.response with
      | false, _ => .error "Veo operation timed out"
      | true, none => .error "Veo operation timed out"
      | true, some resp =>
        match resp.generated_videos with
        | [] => .error "Veo returned no videos"
        | v :: _ =>
          match env.files_download v with
          | .error e => .error e
          | .ok _ =>
            match env.file_save v (outPath job.job_id) with
            | .error e => .error e
            | .ok _ => .ok (successJob job, ["ready"])

/-- VeoService._run_veo_job (lines 248-265): run _run_veo_sync and, on any
exception, set status to error, record the message, and attach the
substitute video_url (graceful fallback). The second component is the
trace of status values assigned during the background run. -/
def runVeoJob (env : VeoEnv) (job : VeoJob) : VeoJob × List String :=
  match runVeoSync env job with
  | .ok (j, w) => (j, w)
  | .error e =>
    ({ job with status := "error", error := some e, video_url := some MOCK_VIDEO_URL },
     ["error"])

-- ──────────────────────────────────────────────────────────────────
-- generate_video (lines 221-246) and the full lifecycle
-- ──────────────────────────────────────────────────────────────────

/-- Result of the synchronous part of generate_video: the job store after
insertion, the stored record as of return, the second component of the
returned pair (video_url_if_instant), whether a background task was
scheduled, and the trace of status values assigned so far (the record is
created with status generating, which counts as the first write). -/
structure SubmitResult where
  store : List (String × VeoJob)
  job : VeoJob
  instant_url : Option String
  spawned : Bool
  writes : List String
deriving DecidableEq

/-- VeoService.generate_video (lines 221-246). The client argument is the
result of _get_client: none when no API key is configured or client
construction failed. job_id stands for the generated uuid4 and now for
time.time() at record creation. -/
def generate_video (client : Option VeoEnv) (store : List (String × VeoJob))
    (job_id : String) (now : Int) (analytics : FieldAnalytics) : SubmitResult :=
  let job : VeoJob :=
    { job_id := job_id, status := "generating", analytics := some analytics, created_at := now }
  match client with
  | none =>
    let job := { job with status := "ready", video_url := some MOCK_VIDEO_URL }
    { store := (job_id, job) :: store
    , job := job
    , instant_url := some MOCK_VIDEO_URL
    , spawned := false
    , writes := ["generating", "ready"] }
  | some _ =>
    { store := (job_id, job) :: store
    , job := job
    , instant_url := none
    , spawned := true
    , writes := ["generating"] }

/-- The complete lifecycle of one submitted job: the synchronous part of
generate_video followed, when a background task was scheduled, by the
background run to completion. Returns the final record and the full trace
of status values assigned to it. -/
def lifecycle (client : Option VeoEnv) (job_id : String) (now : Int)
    (analytics : FieldAnalytics) : VeoJob × List String :=
  match client with
  | none =>
    let r := generate_video none [] job_id now analytics
    (r.job, r.writes)
  | some env =>
    let r := generate_video (some env) [] job_id now analytics
    let b := runVeoJob env r.job
    (b.1, r.writes ++ b.2)

-- ──────────────────────────────────────────────────────────────────
-- Job polling (lines 352-359)
-- ──────────────────────────────────────────────────────────────────

/-- VeoService.get_job (lines 352-353). -/
def get_job (jobs : List (String × VeoJob)) (job_id : String) : Option VeoJob :=
  List.lookup job_id jobs

/-- VeoService.get_video_path (lines 355-359): the truthiness test
if job and job.video_path and os.path.exists(job.video_path) treats both
None and the empty string as falsy, hence the isEmpty check; fs is the
list of paths that exist on disk. -/
def get_video_path (jobs : List (String × VeoJob)) (fs : List String)
    (job_id : String) : Option String :=
  match List.lookup job_id jobs with
  | none => none
  | some job =>
    match job.video_path with
    | none => none
    | some p => if p.isEmpty then none else if fs.contains p then some p else none

-- ──────────────────────────────────────────────────────────────────
-- Cleanup (lines 363-376)
-- ──────────────────────────────────────────────────────────────────

/-- The artifact-deletion half of cleanup_old_jobs (lines 370-376): for
each popped job, if job.video_path is truthy (set and nonempty) and the
file exists, remove it; a missing file is skipped and an OSError is
swallowed, so the deletion never fails. -/
def deleteArtifacts : List VeoJob → List String → List String
  | [], fs => fs
  | job :: rest, fs =>
    match job.video_path with
    | none => deleteArtifacts rest fs
    | some p =>
      if p.isEmpty then deleteArtifacts rest fs
      else if fs.contains p then deleteArtifacts rest (fs.erase p)
      else deleteArtifacts rest fs

/-- VeoService.cleanup_old_jobs (lines 363-376): collect the entries whose
age strictly exceeds max_age_seconds, pop each collected id from the dict
and delete its backing artifact. With the dict keys unique (they are
uuid4 ids), popping each expired id retains exactly the non-expired
entries, which is how the store half is expressed here. Returns the new
store and the new filesystem. -/
def cleanup_old_jobs (now max_age_seconds : Int) (jobs : List (String × VeoJob))
    (fs : List String) : List (String × VeoJob) × List String :=
  let expired := jobs.filter (fun p => decide (now - p.2.created_at > max_age_seconds))
  (jobs.filter (fun p => decide (¬ (now - p.2.created_at > max_age_seconds))),
   deleteArtifacts (expired.map Prod.snd) fs)

-- ──────────────────────────────────────────────────────────────────
-- Vision analysis (lines 132-217)
-- ──────────────────────────────────────────────────────────────────

/-- The JSON object produced by the remote vision model, as consumed at
lines 199-211: every key that data.get reads, each possibly absent.
Values of a wrong runtime type would make int()/float() raise, which is
covered by the Except.error analysis outcome below. -/
structure RemoteAnalysis where
  land_area_ha : Option Rat := none
  water_need_l_per_day : Option Rat := none
  profit_usd_per_ha : Option Rat := none
  risk_score : Option Int := none
  risk_label : Option String := none
  sustainability_score : Option Int := none
  soil_type : Option String := none
  dominant_vegetation : Option String := none
  recommended_crop : Option String := none
  veo_prompt : Option String := none
  notes : Option String := none
deriving DecidableEq

/-- The FieldAnalytics construction at lines 199-212: each field is taken
from the parsed response with data.get defaults, with no clamping of any
score. -/
def buildAnalytics (data : RemoteAnalysis) : FieldAnalytics :=
  { land_area_ha := data.land_area_ha.getD 10
  , water_need_l_per_day := data.water_need_l_per_day.getD 3500
  , profit_usd_per_ha := data.profit_usd_per_ha.getD 1000
  , risk_score := data.risk_score.getD 30
  , risk_label := data.risk_label.getD "Moderate"
  , sustainability_score := data.sustainability_score.getD 65
  , soil_type := data.soil_type.getD "Unknown"
  , dominant_vegetation := data.dominant_vegetation.getD "Unknown"
  , recommended_crop := data.recommended_crop.getD "N/A"
  , veo_prompt := data.veo_prompt.getD ""
  , notes := data.notes.getD ""
  , is_mock := false }

/-- VeoService._analyze_image_sync (lines 132-217). The client argument is
none when _get_client returns None (mock analytics are returned); otherwise
the whole remote pipeline (the analysis-model fallback loop, markdown
stripping and json parsing, lines 162-198) is abstracted by its outcome:
either the parsed response object or the raised exception message, in
which case the mock analytics are returned with an explanatory note
(lines 213-217). -/
def analyze_image_sync (client : Option (Except String RemoteAnalysis)) : FieldAnalytics :=
  match client with
  | none => MOCK_ANALYTICS
  | some (.error exc) =>
    { MOCK_ANALYTICS with notes := "Using mock data due to analysis error: " ++ exc }
  | some (.ok data) => buildAnalytics data

-- ──────────────────────────────────────────────────────────────────
-- Concrete environments used by witnesses and counterexamples
-- ──────────────────────────────────────────────────────────────────

/-- The record produced by the exception handler of _run_veo_job
(lines 261-265) for the timeout raised at line 332. -/
def timeoutErrorJob (job : VeoJob) : VeoJob :=
  { job with status := "error", error := some "Veo operation timed out", video_url := some MOCK_VIDEO_URL }

/-- An operation handle that never reports done. -/
def opIdle : Operation := { done := false, response := none }

/-- A fresh job record as created by generate_video. -/
def jobW : VeoJob := { job_id := "w", created_at := 0 }

/-- Client behaviour where the first candidate model starts an operation
that never completes. -/
def envTimeout : VeoEnv :=
  { generate_videos := fun m =>
      if m = "veo-3.1-generate-preview" then .ok opIdle else .error "boom"
  , operations_get := fun _ => opIdle
  , files_download := fun _ => .ok ()
  , file_save := fun _ _ => .ok () }

/-- Client behaviour where every candidate model raises a quota error
that does not mention billing. -/
def envAllFail : VeoEnv :=
  { generate_videos := fun _ => .error "quota exceeded"
  , operations_get := fun _ => opIdle
  , files_download := fun _ => .ok ()
  , file_save := fun _ _ => .ok () }

/-- Client behaviour where every candidate raises and the last candidate
raises a billing-entitlement error. -/
def envBilling : VeoEnv :=
  { generate_videos := fun m =>
      .error (if m = "veo-2.0-generate-001"
              then "Project needs Billing Enabled to use Veo" else "quota exceeded")
  , operations_get := fun _ => opIdle
  , files_download := fun _ => .ok ()
  , file_save := fun _ _ => .ok () }

/-- Start behaviour where only the last candidate model succeeds. -/
def startLastOk : String → Except String Operation := fun m =>
  if m = "veo-2.0-generate-001" then .ok opIdle else .error "unavailable"

/-- Start behaviour where every candidate raises, the last with a
distinguished message. -/
def startAllFail : String → Except String Operation := fun m =>
  .error (if m = "veo-2.0-generate-001" then "err3" else "err")

/-- A remote response carrying an out-of-range risk score. -/
def overData : RemoteAnalysis := { risk_score := some 150 }

/-- A ready job with a stored artifact, for the get_video_path witness. -/
def jobReadyW : VeoJob :=
  { job_id := "a", status := "ready"
  , video_url := some "/api/field-vision/video/a"
  , video_path := some (outPath "a"), created_at := 0 }

/-- A store holding the single ready job above. -/
def wjobs : List (String × VeoJob) := [("a", jobReadyW)]

/-- A filesystem holding the artifact of the ready job above. -/
def wfs : List String := [outPath "a"]

/-- An old job (expired at now = 200, max age 150) with an artifact. -/
def jobOldW : VeoJob :=
  { job_id := "old", status := "ready", video_path := some (outPath "old"), created_at := 0 }

/-- A recent job (kept at now = 200, max age 150) with an artifact. -/
def jobNewW : VeoJob :=
  { job_id := "new", status := "ready", video_path := some (outPath "new"), created_at := 100 }

/-- A store holding the expired and the recent job. -/
def wjobs2 : List (String × VeoJob) := [("old", jobOldW), ("new", jobNewW)]

/-- A filesystem holding both artifacts. -/
def wfs2 : List String := [outPath "old", outPath "new"]

-- ──────────────────────────────────────────────────────────────────
-- Helper lemmas
-- ──────────────────────────────────────────────────────────────────

/-- Every run of _run_veo_sync either returns normally, having assigned
status exactly once (to ready) and having set the output locator, or
raises without having touched the record. -/
lemma runVeoSync_shape (env : VeoEnv) (job : VeoJob) :
    (∃ j, runVeoSync env job = .ok (j, ["ready"]) ∧ j.status = "ready" ∧
      (j.video_url).isSome = true) ∨
    (∃ e, runVeoSync env job = .error e) := by
  unfold runVeoSync
  split
  · split
    · exact Or.inl ⟨_, rfl, rfl, rfl⟩
    · exact Or.inr ⟨_, rfl⟩
  · split
    split
    · exact Or.inr ⟨_, rfl⟩
    · exact Or.inr ⟨_, rfl⟩
    · split
      · exact Or.inr ⟨_, rfl⟩
      · split
        · exact Or.inr ⟨_, rfl⟩
        · split
          · exact Or.inr ⟨_, rfl⟩
          · exact Or.inl ⟨_, rfl, rfl, rfl⟩

-- ──────────────────────────────────────────────────────────────────
-- Claim theorems
-- ──────────────────────────────────────────────────────────────────

/-- C1: every background run of a submitted job terminates (runVeoJob is a
total function of the client behaviour) and leaves the record in a
terminal status, ready or error, with the output locator video_url set —
under every client behaviour, including all candidates raising, the poll
ceiling being exhausted, and the backend returning no artifacts. -/
theorem background_job_terminal_with_output (env : VeoEnv) (job : VeoJob) :
    ((runVeoJob env job).1.status = "ready" ∨ (runVeoJob env job).1.status = "error") ∧
    ((runVeoJob env job).1.video_url).isSome = true := by
  rcases runVeoSync_shape env job with ⟨j, hj, hs, hv⟩ | ⟨e, he⟩
  · simp [runVeoJob, hj, hs, hv]
  · simp [runVeoJob, he]

/-- C2, counterexample: when every candidate model raises a non-billing
error, the background run leaves the job in status error and still sets
video_url to the substitute locator, so status = ready is not equivalent
to the output locator being set. -/
theorem ready_iff_output_counterexample :
    ¬ (((runVeoJob envAllFail jobW).1.status = "ready") ↔
       (runVeoJob envAllFail jobW).1.video_url ≠ none) := by decide

/-- C2, amended: for every job record in a terminal state the output
locator is set; status = ready implies it is set, and a job in status
error carries the substitute locator MOCK_VIDEO_URL rather than none. -/
theorem terminal_output_always_set (client : Option VeoEnv) (jid : String)
    (now : Int) (an : FieldAnalytics) :
    ((lifecycle client jid now an).1.video_url).isSome = true ∧
    ((lifecycle client jid now an).1.status = "error" →
      (lifecycle client jid now an).1.video_url = some MOCK_VIDEO_URL) := by
  cases client with
  | none => exact ⟨rfl, fun h => by simp [lifecycle, generate_video] at h⟩
  | some env =>
    rcases runVeoSync_shape env (generate_video (some env) [] jid now an).job with
      ⟨j, hj, hs, hv⟩ | ⟨e, he⟩
    · simp only [generate_video] at hj
      constructor
      · simp [lifecycle, generate_video, runVeoJob, hj, hv]
      · intro h
        simp [lifecycle, generate_video, runVeoJob, hj] at h
        rw [hs] at h
        simp at h
    · simp only [generate_video] at he
      constructor
      · simp [lifecycle, generate_video, runVeoJob, he]
      · intro _
        simp [lifecycle, generate_video, runVeoJob, he]

/-- C2, amended, witness at a concrete total-failure environment. -/
theorem terminal_output_always_set_witness :
    (lifecycle (some envAllFail) "w" 0 MOCK_ANALYTICS).1.video_url = some MOCK_VIDEO_URL :=
  (terminal_output_always_set (some envAllFail) "w" 0 MOCK_ANALYTICS).2 (by decide)

/-- C4: with the capability client absent, generate_video creates the job,
marks it ready with the substitute locator synchronously, returns the
substitute url instantly, and spawns no background task; being a total
function of its inputs, this path never fails. -/
theorem offline_submit_ready (store : List (String × VeoJob)) (jid : String)
    (now : Int) (an : FieldAnalytics) :
    (generate_video none store jid now an).job.status = "ready" ∧
    (generate_video none store jid now an).job.video_url = some MOCK_VIDEO_URL ∧
    (generate_video none store jid now an).instant_url = some MOCK_VIDEO_URL ∧
    (generate_video none store jid now an).spawned = false ∧
    (generate_video none store jid now an).store =
      (jid, (generate_video none store jid now an).job) :: store ∧
    (generate_video none store jid now an).job.job_id = jid ∧
    (generate_video none store jid now an).job.created_at = now :=
  ⟨rfl, rfl, rfl, rfl, rfl, rfl, rfl⟩

/-- C7: the sequence of status values assigned to a job record over its
whole lifecycle is generating followed by exactly one terminal value, and
the final status is that terminal value: no write ever follows a terminal
status and no record leaves a terminal state. -/
theorem status_monotonic_trace (client : Option VeoEnv) (jid : String)
    (now : Int) (an : FieldAnalytics) :
    ((lifecycle client jid now an).2 = ["generating", "ready"] ∧
      (lifecycle client jid now an).1.status = "ready") ∨
    ((lifecycle client jid now an).2 = ["generating", "error"] ∧
      (lifecycle client jid now an).1.status = "error") := by
  cases client with
  | none => exact Or.inl ⟨rfl, rfl⟩
  | some env =>
    rcases runVeoSync_shape env (generate_video (some env) [] jid now an).job with
      ⟨j, hj, hs, _⟩ | ⟨e, he⟩
    · simp only [generate_video] at hj
      exact Or.inl ⟨by simp [lifecycle, generate_video, runVeoJob, hj],
        by simp [lifecycle, generate_video, runVeoJob, hj, hs]⟩
    · simp only [generate_video] at he
      exact Or.inr ⟨by simp [lifecycle, generate_video, runVeoJob, he],
        by simp [lifecycle, generate_video, runVeoJob, he]⟩

/-- If every candidate of a prefix raises and the next candidate starts an
operation, the loop attempts exactly the prefix and that candidate in
order, stops there, and returns that operation, for any incoming
last_error. -/
lemma tryModels_ok_first (start : String → Except String Operation)
    (m : String) (post : List String) (op : Operation) (hm : start m = .ok op) :
    ∀ pre : List String, (∀ x ∈ pre, (start x).toOption = none) → ∀ e0,
      (tryModels start (pre ++ m :: post) e0).1 = some op ∧
      (tryModels start (pre ++ m :: post) e0).2.2 = pre ++ [m] := by
  intro pre
  induction pre with
  | nil => intro _ e0; simp [tryModels, hm]
  | cons x pre ih =>
    intro hpre e0
    have hx : (start x).toOption = none := hpre x (by simp)
    cases hsx : start x with
    | ok o => rw [hsx] at hx; simp [Except.toOption] at hx
    | error ex =>
      have := ih (fun y hy => hpre y (by simp [hy])) (some ex)
      simp [tryModels, hsx, this.1, this.2]

/-- If every candidate of the initial segment raises and the last
candidate raises with message e, the loop attempts every candidate in
order, returns no operation, and holds e as the last captured error. -/
lemma tryModels_exhaust (start : String → Except String Operation)
    (mlast : String) (e : String) (hm : start mlast = .error e) :
    ∀ init : List String, (∀ x ∈ init, (start x).toOption = none) → ∀ e0,
      tryModels start (init ++ [mlast]) e0 = (none, some e, init ++ [mlast]) := by
  intro init
  induction init with
  | nil => intro _ e0; simp [tryModels, hm]
  | cons x init ih =>
    intro hpre e0
    have hx : (start x).toOption = none := hpre x (by simp)
    cases hsx : start x with
    | ok o => rw [hsx] at hx; simp [Except.toOption] at hx
    | error ex =>
      have := ih (fun y hy => hpre y (by simp [hy])) (some ex)
      simp [tryModels, hsx, this]

/-- C3: the resolver loop attempts the candidates in list order at most
once each: whenever every candidate of a prefix raises and the next one
returns an operation handle, exactly that prefix plus the succeeding
candidate are attempted, in order, later candidates are not attempted,
and the succeeding candidate's handle is returned; and when every
candidate raises, no handle is produced, every candidate was attempted
exactly once in order, and the last raised error is the one carried. -/
theorem resolver_order_and_exhaustion (start : String → Except String Operation) :
    (∀ pre m post op, (∀ x ∈ pre, (start x).toOption = none) → start m = .ok op →
      (tryModels start (pre ++ m :: post) none).1 = some op ∧
      (tryModels start (pre ++ m :: post) none).2.2 = pre ++ [m]) ∧
    (∀ init mlast e, (∀ x ∈ init, (start x).toOption = none) → start mlast = .error e →
      tryModels start (init ++ [mlast]) none = (none, some e, init ++ [mlast])) :=
  ⟨fun pre m post op hpre hm => tryModels_ok_first start m post op hm pre hpre none,
   fun init mlast e hpre hm => tryModels_exhaust start mlast e hm init hpre none⟩

/-- C3, witness: over the actual candidate list, with the first two
models raising and the last succeeding, all three are attempted in order
and the last one's handle is returned; and with all three raising, all
three are attempted and the last error err3 is carried. -/
theorem resolver_order_witness :
    (tryModels startLastOk veo_models none).1 = some opIdle ∧
    (tryModels startLastOk veo_models none).2.2 = veo_models ∧
    tryModels startAllFail veo_models none = (none, some "err3", veo_models) := by
  have h1 := (resolver_order_and_exhaustion startLastOk).1
    ["veo-3.1-generate-preview", "veo-3.0-generate-001"] "veo-2.0-generate-001" []
    opIdle (by decide) rfl
  have h2 := (resolver_order_and_exhaustion startAllFail).2
    ["veo-3.1-generate-preview", "veo-3.0-generate-001"] "veo-2.0-generate-001"
    "err3" (by decide) rfl
  exact ⟨h1.1, h1.2, h2⟩

/-- C5: when every candidate model raises and the last raised message
indicates the billing/entitlement condition, the background run marks the
job ready with the substitute output locator and the explanatory note,
and not error. -/
theorem billing_failure_marks_ready (env : VeoEnv) (job : VeoJob) (e1 e2 e3 : String)
    (h1 : env.generate_videos "veo-3.1-generate-preview" = .error e1)
    (h2 : env.generate_videos "veo-3.0-generate-001" = .error e2)
    (h3 : env.generate_videos "veo-2.0-generate-001" = .error e3)
    (hb : billingIndicated (some e3) = true) :
    runVeoJob env job = (billingReadyJob job, ["ready"]) ∧
    (runVeoJob env job).1.status = "ready" ∧
    (runVeoJob env job).1.video_url = some MOCK_VIDEO_URL ∧
    (runVeoJob env job).1.notes = some billingNote ∧
    (runVeoJob env job).1.status ≠ "error" := by
  have htm : tryModels env.generate_videos veo_models none =
      (none, some e3, veo_models) := by
    have := tryModels_exhaust env.generate_videos "veo-2.0-generate-001" e3 h3
      ["veo-3.1-generate-preview", "veo-3.0-generate-001"]
      (by intro x hx
          simp only [List.mem_cons, List.not_mem_nil, or_false] at hx
          rcases hx with rfl | rfl
          · simp [h1, Except.toOption]
          · simp [h2, Except.toOption]) none
    exact this
  have hrun : runVeoJob env job = (billingReadyJob job, ["ready"]) := by
    simp [runVeoJob, runVeoSync, htm, hb]
  refine ⟨hrun, ?_, ?_, ?_, ?_⟩ <;> rw [hrun] <;> simp [billingReadyJob]

/-- C5, witness at a concrete environment whose last candidate raises a
message mentioning billing. -/
theorem billing_failure_marks_ready_witness :
    runVeoJob envBilling jobW = (billingReadyJob jobW, ["ready"]) ∧
    (runVeoJob envBilling jobW).1.status = "ready" ∧
    (runVeoJob envBilling jobW).1.video_url = some MOCK_VIDEO_URL ∧
    (runVeoJob envBilling jobW).1.notes = some billingNote ∧
    (runVeoJob envBilling jobW).1.status ≠ "error" :=
  billing_failure_marks_ready envBilling jobW "quota exceeded" "quota exceeded"
    "Project needs Billing Enabled to use Veo" rfl rfl rfl (by decide)

/-- Under a refresh stream that never reports done, the poll loop runs
through its whole fuel, performing one 10-unit sleep and one refresh per
iteration, and the final operation is still not done. -/
lemma pollLoop_never (refresh : Nat → Operation)
    (h : ∀ k, (refresh k).done = false) :
    ∀ fuel op r s, op.done = false →
      (pollLoop refresh op r s fuel).1.done = false ∧
      (pollLoop refresh op r s fuel).2.1 = r + fuel ∧
      (pollLoop refresh op r s fuel).2.2 = s + 10 * fuel := by
  intro fuel
  induction fuel with
  | zero => intro op r s hop; simp [pollLoop, hop]
  | succ n ih =>
    intro op r s hop
    have := ih (refresh r) (r + 1) (s + 10) (h r)
    simp only [pollLoop, hop, Bool.false_eq_true, if_false]
    refine ⟨this.1, ?_, ?_⟩
    · rw [this.2.1]; omega
    · rw [this.2.2]; ring

/-- C6: when the started operation never reports done, the poll loop
performs exactly 42 refreshes separated by 10-unit sleeps (420 units in
total, never an indefinite hang) and the job then transitions to error
with the timeout message and the substitute output locator. -/
theorem poll_ceiling_timeout (env : VeoEnv) (job : VeoJob) (op : Operation)
    (h1 : env.generate_videos "veo-3.1-generate-preview" = .ok op)
    (h2 : op.done = false)
    (h3 : ∀ k, (env.operations_get k).done = false) :
    runVeoJob env job = (timeoutErrorJob job, ["error"]) ∧
    (pollLoop env.operations_get op 0 0 42).2.1 = 42 ∧
    (pollLoop env.operations_get op 0 0 42).2.2 = 420 := by
  have htm : tryModels env.generate_videos veo_models none =
      (some op, none, ["veo-3.1-generate-preview"]) := by
    simp [tryModels, veo_models, h1]
  have hpl := pollLoop_never env.operations_get h3 42 op 0 0 h2
  refine ⟨?_, hpl.2.1, hpl.2.2⟩
  rcases hp : pollLoop env.operations_get op 0 0 42 with ⟨fop, rc, sc⟩
  have hdone : fop.done = false := by
    have := hpl.1
    rw [hp] at this
    exact this
  simp [runVeoJob, runVeoSync, timeoutErrorJob, htm, hp, hdone]

/-- C6, witness at a concrete environment whose operation never
completes. -/
theorem poll_ceiling_timeout_witness :
    runVeoJob envTimeout jobW = (timeoutErrorJob jobW, ["error"]) ∧
    (pollLoop envTimeout.operations_get opIdle 0 0 42).2.1 = 42 ∧
    (pollLoop envTimeout.operations_get opIdle 0 0 42).2.2 = 420 :=
  poll_ceiling_timeout envTimeout jobW opIdle rfl rfl (fun _ => rfl)

/-- Membership in the filesystem after the artifact-deletion pass: a path
survives exactly when it was present and is not the nonempty recorded
artifact path of any processed job. -/
lemma deleteArtifacts_mem (l : List VeoJob) :
    ∀ fs : List String, fs.Nodup → ∀ p : String,
      (p ∈ deleteArtifacts l fs ↔ p ∈ fs ∧
        ∀ j ∈ l, ∀ q, j.video_path = some q → q.isEmpty = false → p ≠ q) := by
  induction l with
  | nil => intro fs _ p; simp [deleteArtifacts]
  | cons job rest ih =>
    intro fs hnd p
    cases hvp : job.video_path with
    | none =>
      have hstep : deleteArtifacts (job :: rest) fs = deleteArtifacts rest fs := by
        simp [deleteArtifacts, hvp]
      rw [hstep, ih fs hnd p, List.forall_mem_cons]
      have hhead : ∀ q, job.video_path = some q → q.isEmpty = false → p ≠ q := by
        intro q hq; rw [hvp] at hq; cases hq
      tauto
    | some q0 =>
      by_cases hq0e : q0.isEmpty
      · have hstep : deleteArtifacts (job :: rest) fs = deleteArtifacts rest fs := by
          simp [deleteArtifacts, hvp, hq0e]
        rw [hstep, ih fs hnd p, List.forall_mem_cons]
        have hhead : ∀ q, job.video_path = some q → q.isEmpty = false → p ≠ q := by
          intro q hq hqe
          rw [hvp] at hq
          cases hq
          rw [hq0e] at hqe
          cases hqe
        tauto
      · have hq0e' : q0.isEmpty = false := by
          cases h : q0.isEmpty
          · rfl
          · exact absurd h hq0e
        have hhead : (∀ q, job.video_path = some q → q.isEmpty = false → p ≠ q) ↔ p ≠ q0 := by
          constructor
          · intro h; exact h q0 hvp hq0e'
          · intro h q hq _
            rw [hvp] at hq
            cases hq
            exact h
        by_cases hc : fs.contains q0
        · have hstep : deleteArtifacts (job :: rest) fs =
              deleteArtifacts rest (fs.erase q0) := by
            simp only [deleteArtifacts, hvp]
            rw [if_neg hq0e, if_pos hc]
          rw [hstep, ih (fs.erase q0) (hnd.erase q0) p, List.forall_mem_cons, hhead,
            List.Nodup.mem_erase_iff hnd]
          tauto
        · have hstep : deleteArtifacts (job :: rest) fs = deleteArtifacts rest fs := by
            simp only [deleteArtifacts, hvp]
            rw [if_neg hq0e, if_neg hc]
          have hq0 : q0 ∉ fs := fun hmem => hc (List.elem_iff.mpr hmem)
          rw [hstep, ih fs hnd p, List.forall_mem_cons, hhead]
          constructor
          · rintro ⟨hp, hall⟩
            exact ⟨hp, fun he => hq0 (he ▸ hp), hall⟩
          · rintro ⟨hp, _, hall⟩
            exact ⟨hp, hall⟩

/-- C8: the sweep removes from the store exactly the records whose age
strictly exceeds the threshold; it deletes exactly the nonempty recorded
artifact paths of the removed records that were present, tolerating a
missing file (the deletion pass is a total function); retained records
keep their artifacts (given that no expired record shares an artifact
path with a retained one, which holds in the service because artifact
paths are derived from the unique job ids), and files that are nobody's
expired artifact survive. -/
theorem cleanup_sweep_exact (now maxAge : Int) (jobs : List (String × VeoJob))
    (fs : List String) (hfs : fs.Nodup)
    (hdisj : ∀ e ∈ jobs, ∀ k ∈ jobs, now - e.2.created_at > maxAge →
      ¬(now - k.2.created_at > maxAge) → ∀ p, k.2.video_path = some p →
      e.2.video_path ≠ some p) :
    (∀ jid job, (jid, job) ∈ (cleanup_old_jobs now maxAge jobs fs).1 ↔
      ((jid, job) ∈ jobs ∧ ¬(now - job.created_at > maxAge))) ∧
    (∀ p, p ∈ (cleanup_old_jobs now maxAge jobs fs).2 → p ∈ fs) ∧
    (∀ jid job p, (jid, job) ∈ jobs → now - job.created_at > maxAge →
      job.video_path = some p → p.isEmpty = false →
      p ∉ (cleanup_old_jobs now maxAge jobs fs).2) ∧
    (∀ jid job p, (jid, job) ∈ jobs → ¬(now - job.created_at > maxAge) →
      job.video_path = some p →
      (p ∈ (cleanup_old_jobs now maxAge jobs fs).2 ↔ p ∈ fs)) ∧
    (∀ p, p ∈ fs → (∀ jid job, (jid, job) ∈ jobs → now - job.created_at > maxAge →
      ∀ q, job.video_path = some q → q.isEmpty = false → p ≠ q) →
      p ∈ (cleanup_old_jobs now maxAge jobs fs).2) := by
  have hmem := deleteArtifacts_mem
    ((jobs.filter (fun p => decide (now - p.2.created_at > maxAge))).map Prod.snd)
    fs hfs
  have hsnd : ∀ j, j ∈ (jobs.filter
      (fun p => decide (now - p.2.created_at > maxAge))).map Prod.snd ↔
      ∃ jid, (jid, j) ∈ jobs ∧ now - j.created_at > maxAge := by
    intro j
    rw [List.mem_map]
    constructor
    · rintro ⟨⟨jid, j'⟩, hmem', rfl⟩
      rw [List.mem_filter] at hmem'
      exact ⟨jid, hmem'.1, by simpa using hmem'.2⟩
    · rintro ⟨jid, hj, hage⟩
      exact ⟨(jid, j), List.mem_filter.mpr ⟨hj, by simpa using hage⟩, rfl⟩
  refine ⟨?_, ?_, ?_, ?_, ?_⟩
  · intro jid job
    simp [cleanup_old_jobs, List.mem_filter]
  · intro p hp
    exact ((hmem p).mp hp).1
  · intro jid job p hj hage hvp hne hp
    have hcond := ((hmem p).mp hp).2
    exact hcond job ((hsnd job).mpr ⟨jid, hj, hage⟩) p hvp hne rfl
  · intro jid job p hj hkept hvp
    constructor
    · intro hp; exact ((hmem p).mp hp).1
    · intro hp
      refine (hmem p).mpr ⟨hp, ?_⟩
      intro j hjmem q hq hqe heq
      rcases (hsnd j).mp hjmem with ⟨jidE, hjE, hageE⟩
      exact hdisj (jidE, j) hjE (jid, job) hj hageE hkept p hvp (by rw [hq, heq])
  · intro p hp hnone
    refine (hmem p).mpr ⟨hp, ?_⟩
    intro j hjmem q hq hqe
    rcases (hsnd j).mp hjmem with ⟨jidE, hjE, hageE⟩
    exact hnone jidE j hjE hageE q hq hqe

/-- C8, witness: at now = 200 with a 150-unit window, the job created at 0
is removed and its artifact deleted, while the job created at 100 and its
artifact survive. -/
theorem cleanup_sweep_exact_witness :
    (("new", jobNewW) ∈ (cleanup_old_jobs 200 150 wjobs2 wfs2).1) ∧
    (("old", jobOldW) ∉ (cleanup_old_jobs 200 150 wjobs2 wfs2).1) ∧
    (outPath "old" ∉ (cleanup_old_jobs 200 150 wjobs2 wfs2).2) ∧
    (outPath "new" ∈ (cleanup_old_jobs 200 150 wjobs2 wfs2).2) := by
  have h := cleanup_sweep_exact 200 150 wjobs2 wfs2 (by decide) (by decide)
  refine ⟨(h.1 "new" jobNewW).mpr ⟨by decide, by decide⟩,
    fun hm => ((h.1 "old" jobOldW).mp hm).2 (by decide),
    h.2.2.1 "old" jobOldW (outPath "old") (by decide) (by decide) (by decide) (by decide),
    (h.2.2.2.1 "new" jobNewW (outPath "new") (by decide) (by decide) (by decide)).mpr
      (by decide)⟩

/-- A successful dict lookup means the key-value pair is in the store. -/
lemma lookup_mem : ∀ {jobs : List (String × VeoJob)} {jid : String} {job : VeoJob},
    List.lookup jid jobs = some job → (jid, job) ∈ jobs := by
  intro jobs
  induction jobs with
  | nil => intro jid job h; simp [List.lookup] at h
  | cons hd tl ih =>
    intro jid job h
    rcases hd with ⟨k, v⟩
    rw [List.lookup] at h
    cases hbeq : (jid == k) with
    | true =>
      rw [hbeq] at h
      simp only [Option.some.injEq] at h
      have hk : jid = k := by simpa using hbeq
      subst hk
      subst h
      exact List.mem_cons_self _ _
    | false =>
      rw [hbeq] at h
      exact List.mem_cons_of_mem _ (ih h)

/-- C9: get_video_path returns a path only when the job id is present,
the record has status ready (via the reachable-state invariant that a
recorded artifact path implies status ready), its recorded artifact path
is that path and the path exists on disk; with an unknown id, a
non-ready record, no recorded path, or a missing file it returns none. -/
theorem artifact_path_requires_ready (jobs : List (String × VeoJob))
    (fs : List String) (jid : String)
    (hinv : ∀ e ∈ jobs, e.2.video_path ≠ none → e.2.status = "ready") :
    (∀ path, get_video_path jobs fs jid = some path →
      ∃ job, List.lookup jid jobs = some job ∧ job.status = "ready" ∧
        job.video_path = some path ∧ path ∈ fs) ∧
    (List.lookup jid jobs = none → get_video_path jobs fs jid = none) ∧
    (∀ job, List.lookup jid jobs = some job → job.status ≠ "ready" →
      get_video_path jobs fs jid = none) ∧
    (∀ job, List.lookup jid jobs = some job → job.video_path = none →
      get_video_path jobs fs jid = none) ∧
    (∀ job path, List.lookup jid jobs = some job → job.video_path = some path →
      path ∉ fs → get_video_path jobs fs jid = none) := by
  refine ⟨?_, ?_, ?_, ?_, ?_⟩
  · intro path hp
    unfold get_video_path at hp
    cases hlk : List.lookup jid jobs with
    | none => rw [hlk] at hp; cases hp
    | some job =>
      rw [hlk] at hp
      dsimp only at hp
      cases hvp : job.video_path with
      | none => rw [hvp] at hp; cases hp
      | some p =>
        rw [hvp] at hp
        dsimp only at hp
        by_cases hemp : p.isEmpty
        · rw [if_pos hemp] at hp; cases hp
        · rw [if_neg hemp] at hp
          by_cases hc : fs.contains p
          · rw [if_pos hc] at hp
            have hpp : p = path := by
              simpa using hp
            subst hpp
            exact ⟨job, rfl, hinv _ (lookup_mem hlk) (by rw [hvp]; simp),
              hvp, List.elem_iff.mp hc⟩
          · rw [if_neg hc] at hp; cases hp
  · intro hlk
    unfold get_video_path
    rw [hlk]
  · intro job hlk hst
    have hvp : job.video_path = none := by
      by_contra hne
      exact hst (hinv _ (lookup_mem hlk) hne)
    unfold get_video_path
    rw [hlk]
    dsimp only
    rw [hvp]
  · intro job hlk hvp
    unfold get_video_path
    rw [hlk]
    dsimp only
    rw [hvp]
  · intro job path hlk hvp hnotin
    unfold get_video_path
    rw [hlk]
    dsimp only
    rw [hvp]
    dsimp only
    have hc : ¬ (fs.contains path = true) := fun h => hnotin (List.elem_iff.mp h)
    by_cases hemp : path.isEmpty
    · rw [if_pos hemp]
    · rw [if_neg hemp, if_neg hc]

/-- C9, witness: a store whose single record is ready with an existing
artifact satisfies the invariant, and the returned path carries the
stated guarantees. -/
theorem artifact_path_requires_ready_witness :
    ∃ job, List.lookup "a" wjobs = some job ∧ job.status = "ready" ∧
      job.video_path = some (outPath "a") ∧ outPath "a" ∈ wfs :=
  (artifact_path_requires_ready wjobs wfs "a" (by decide)).1 (outPath "a") (by decide)

/-- C10, counterexample: a remote response supplying risk_score 150 flows
into the produced analytics unchanged, leaving the score outside [0,100],
so the scores are not clamped. -/
theorem score_clamping_counterexample :
    (analyze_image_sync (some (.ok overData))).risk_score = 150 ∧
    ¬ ((analyze_image_sync (some (.ok overData))).risk_score ≤ 100) := by decide

/-- C10, amended: the scores are passed through from the remote response
without clamping (with defaults 30 and 65 when the key is absent), so
they lie in [0,100] exactly when the supplied values do; the substitute
analytics returned when no client is configured, or when the analysis
raises, have scores 28 and 74, inside [0,100]. -/
theorem scores_passthrough_unclamped (data : RemoteAnalysis) :
    (analyze_image_sync (some (.ok data))).risk_score = data.risk_score.getD 30 ∧
    (analyze_image_sync (some (.ok data))).sustainability_score =
      data.sustainability_score.getD 65 ∧
    (0 ≤ (analyze_image_sync none).risk_score ∧
      (analyze_image_sync none).risk_score ≤ 100) ∧
    (0 ≤ (analyze_image_sync none).sustainability_score ∧
      (analyze_image_sync none).sustainability_score ≤ 100) ∧
    (∀ exc : String, 0 ≤ (analyze_image_sync (some (.error exc))).risk_score ∧
      (analyze_image_sync (some (.error exc))).risk_score ≤ 100 ∧
      0 ≤ (analyze_image_sync (some (.error exc))).sustainability_score ∧
      (analyze_image_sync (some (.error exc))).sustainability_score ≤ 100) := by
  exact ⟨rfl, rfl, ⟨by decide, by decide⟩, ⟨by decide, by decide⟩,
    fun exc => ⟨show (0 : Int) ≤ 28 by decide, show (28 : Int) ≤ 100 by decide,
      show (0 : Int) ≤ 74 by decide, show (74 : Int) ≤ 100 by decide⟩⟩
